import Mathlib

/-!
Shallow embedding of `src/renderer/event.js` (bonsai): normalized keyboard and
pointer event value objects.

Modelling conventions:
* JS `undefined`-able fields become `Option _` (`none` = unset/`undefined`).
* JS numbers used here are integers (coordinates, key codes, bitmasks);
  coordinates are `Int`, bitmasks `Nat`.
* JS truthiness of an optional boolean platform field: `none` (absent) and
  `some false` are falsy.  JS `type || this.type` on strings treats `""` and
  `undefined` as falsy, modelled by `jsOrType`.
* JS object reference identity (`===` between touch objects, as used by
  `Array.prototype.indexOf`) is modelled by a `ref : Nat` identity tag on
  touch records.
-/

namespace Bonsai

/-- The static raw-to-normalized event type table (`eventTypeMap` in the source). -/
def eventTypeMap (raw : String) : Option String :=
  if raw = "mouseup" then some "pointerup"
  else if raw = "mousedown" then some "pointerdown"
  else if raw = "mousemove" then some "pointermove"
  else if raw = "mouseover" then some "mouseover"
  else if raw = "mouseout" then some "mouseout"
  else none

def NO_MODIFIER : Nat := 0
def ALT_KEY : Nat := 1
def CTRL_KEY : Nat := 2
def META_KEY : Nat := 4
def SHIFT_KEY : Nat := 8

/-- JS string-or fallback: `t || fallback`, where `undefined` and `""` are falsy. -/
def jsOrType (t fallback : Option String) : Option String :=
  match t with
  | some s => if s = "" then fallback else some s
  | none => fallback

/-- Normalized keyboard event object (fields of `function KeyboardEvent`). -/
structure KeyboardEvent where
  type : Option String
  keyCode : Int
  inputValue : Option String
  altKey : Bool
  ctrlKey : Bool
  metaKey : Bool
  shiftKey : Bool
deriving Repr, DecidableEq

/-- Embeds the constructor `function KeyboardEvent(type, keyCode, modifiers,
targetValue)`.  `modifiers` is optional; JS evaluates `undefined & ALT_KEY`
to `0`, so an omitted mask behaves as `0` (`Option.getD 0`). -/
def KeyboardEvent.construct (type : Option String) (keyCode : Int)
    (modifiers : Option Nat) (targetValue : Option String) : KeyboardEvent :=
  let m := modifiers.getD 0
  { type := type
    keyCode := keyCode
    inputValue := targetValue
    altKey := m &&& ALT_KEY != 0
    ctrlKey := m &&& CTRL_KEY != 0
    metaKey := m &&& META_KEY != 0
    shiftKey := m &&& SHIFT_KEY != 0 }

/-- Platform key-info record consumed by `KeyboardEvent.fromDomEvent`.
Modifier fields may be absent (`none`); their JS truthiness is `Option.getD
false`. -/
structure DomKeys where
  altKey : Option Bool
  ctrlKey : Option Bool
  metaKey : Option Bool
  shiftKey : Option Bool
  keyCode : Int
deriving Repr, DecidableEq

/-- JS truthiness of an optional boolean field. -/
def truthy (o : Option Bool) : Bool := o.getD false

/-- Embeds `KeyboardEvent.fromDomEvent = function(type, keys, targetValue)`.
Note the source constructs with `undefined` as the type, ignoring the `type`
argument. -/
def KeyboardEvent.fromDomEvent (type : Option String) (keys : DomKeys)
    (targetValue : Option String) : KeyboardEvent :=
  let modifiers :=
    (if truthy keys.altKey then ALT_KEY else 0) |||
    (if truthy keys.ctrlKey then CTRL_KEY else 0) |||
    (if truthy keys.metaKey then META_KEY else 0) |||
    (if truthy keys.shiftKey then SHIFT_KEY else 0)
  KeyboardEvent.construct none keys.keyCode (some modifiers) targetValue

/-- Recombination of the four flags into a bitmask, exactly as
`KeyboardEvent.prototype.clone` computes its `modifiers` local. -/
def KeyboardEvent.modifierMask (e : KeyboardEvent) : Nat :=
  (if e.altKey then ALT_KEY else 0) |||
  (if e.ctrlKey then CTRL_KEY else 0) |||
  (if e.metaKey then META_KEY else 0) |||
  (if e.shiftKey then SHIFT_KEY else 0)

/-- Embeds `KeyboardEvent.prototype.clone = function(type)`. -/
def KeyboardEvent.clone (e : KeyboardEvent) (type : Option String) : KeyboardEvent :=
  KeyboardEvent.construct (jsOrType type e.type) e.keyCode
    (some e.modifierMask) e.inputValue

/-- Normalized pointer event object (fields of `function PointerEvent`).
`stageX`/`x` and `stageY`/`y` are kept as separate fields, as in the source
object, so the aliasing invariant is a provable property rather than a
modelling assumption. -/
structure PointerEvent where
  type : Option String
  stageX : Int
  x : Int
  stageY : Int
  y : Int
  clientX : Int
  clientY : Int
  deltaX : Option Int
  deltaY : Option Int
  diffX : Option Int
  diffY : Option Int
  isLeft : Option Bool
  isRight : Option Bool
  isMiddle : Option Bool
  touchId : Option Int
  touchIndex : Option Int
deriving Repr, DecidableEq

/-- Embeds the constructor `function PointerEvent(type, stageX, stageY,
clientX, clientY)`: `this.stageX = this.x = stageX`, likewise for `y`, and all
optional fields set to `undefined`. -/
def PointerEvent.construct (type : Option String)
    (stageX stageY clientX clientY : Int) : PointerEvent :=
  { type := type
    stageX := stageX, x := stageX
    stageY := stageY, y := stageY
    clientX := clientX, clientY := clientY
    deltaX := none, deltaY := none, diffX := none, diffY := none
    isLeft := none, isRight := none, isMiddle := none
    touchId := none, touchIndex := none }

/-- A record exposing `clientX`/`clientY`, as consumed by
`PointerEvent.fromDomEvent`. -/
structure ClientOffsets where
  clientX : Int
  clientY : Int
deriving Repr, DecidableEq

/-- Embeds `PointerEvent.fromDomEvent = function(domType, clientOffsets,
stageClientX, stageClientY)`.  The source constructs with `undefined` as the
type; the `domType` argument is never read. -/
def PointerEvent.fromDomEvent (domType : Option String)
    (clientOffsets : ClientOffsets) (stageClientX stageClientY : Int) :
    PointerEvent :=
  let clientX := clientOffsets.clientX
  let clientY := clientOffsets.clientY
  PointerEvent.construct none (clientX - stageClientX) (clientY - stageClientY)
    clientX clientY

/-- Platform mouse event record consumed by `PointerEvent.fromDomMouseEvent`. -/
structure DomMouseEvent where
  type : String
  clientX : Int
  clientY : Int
deriving Repr, DecidableEq

/-- Embeds `PointerEvent.fromDomMouseEvent = function(domEvent, stageX,
stageY)`: type is `eventTypeMap[domEvent.type]`. -/
def PointerEvent.fromDomMouseEvent (domEvent : DomMouseEvent)
    (stageX stageY : Int) : PointerEvent :=
  let clientX := domEvent.clientX
  let clientY := domEvent.clientY
  PointerEvent.construct (eventTypeMap domEvent.type)
    (clientX - stageX) (clientY - stageY) clientX clientY

/-- Platform touch point.  `ref` is the object identity tag modelling the JS
reference compared by `===` in `Array.prototype.indexOf`. -/
structure DomTouch where
  ref : Nat
  identifier : Int
  clientX : Int
  clientY : Int
deriving Repr, DecidableEq

/-- Parent touch event: its ordered `touches` collection. -/
structure DomTouchEvent where
  touches : List DomTouch
deriving Repr, DecidableEq

/-- `Array.prototype.indexOf.call(touches, t)`: forward scan comparing object
references (`===`), returning the zero-based index or `-1`. -/
def jsIndexOf (touches : List DomTouch) (t : DomTouch) : Int :=
  go touches 0
where
  go : List DomTouch → Int → Int
    | [], _ => -1
    | x :: xs, i => if x.ref = t.ref then i else go xs (i + 1)

/-- Embeds `PointerEvent.fromDomTouch = function(domTouch, domEvent, stageX,
stageY)`: constructs with `undefined` type, then assigns `touchId` and
`touchIndex`. -/
def PointerEvent.fromDomTouch (domTouch : DomTouch) (domEvent : DomTouchEvent)
    (stageX stageY : Int) : PointerEvent :=
  let clientX := domTouch.clientX
  let clientY := domTouch.clientY
  let pointerEvent := PointerEvent.construct none
    (clientX - stageX) (clientY - stageY) clientX clientY
  { pointerEvent with
    touchId := some domTouch.identifier
    touchIndex := some (jsIndexOf domEvent.touches domTouch) }

/-- Embeds `PointerEvent.prototype.clone = function(type)`: constructs from
`type || this.type`, `this.x`, `this.y`, `this.clientX`, `this.clientY`, then
copies every optional field from the source. -/
def PointerEvent.clone (e : PointerEvent) (type : Option String) : PointerEvent :=
  let c := PointerEvent.construct (jsOrType type e.type) e.x e.y e.clientX e.clientY
  { c with
    deltaX := e.deltaX, deltaY := e.deltaY
    diffX := e.diffX, diffY := e.diffY
    isLeft := e.isLeft, isRight := e.isRight, isMiddle := e.isMiddle
    touchId := e.touchId, touchIndex := e.touchIndex }

/-- A concrete pointer event whose optional delta, diff, button and touch
fields were populated after construction, as callers of the module do. -/
def populatedSample : PointerEvent :=
  { PointerEvent.construct (some "pointermove") 100 60 150 80 with
    deltaX := some 3, deltaY := some (-2), diffX := some 7, diffY := some 1,
    isLeft := some true, isRight := some false, isMiddle := some false,
    touchId := some 5, touchIndex := some 2 }

/-! ## Helper lemmas -/

/-- `jsIndexOf.go` computes the accumulator-shifted first index of a reference
match, or `-1` when there is none. -/
theorem jsIndexOf_go_spec (t : DomTouch) (l : List DomTouch) (i : Nat) :
    jsIndexOf.go t l (i : Int) =
      (match l.findIdx? (fun x => x.ref == t.ref) i with
       | some j => (j : Int)
       | none => -1) := by
  induction l generalizing i with
  | nil => rfl
  | cons x xs ih =>
    by_cases h : x.ref = t.ref
    · have hb : (x.ref == t.ref) = true := by simpa using h
      simp [jsIndexOf.go, h, List.findIdx?_cons, hb]
    · have hb : (x.ref == t.ref) = false := by simpa using h
      have hgo : jsIndexOf.go t (x :: xs) (i : Int) =
          jsIndexOf.go t xs ((i : Int) + 1) := by
        simp [jsIndexOf.go, h]
      have hfind : List.findIdx? (fun y => y.ref == t.ref) (x :: xs) i =
          List.findIdx? (fun y => y.ref == t.ref) xs (i + 1) := by
        simp [List.findIdx?_cons, hb]
      have hcast : ((i : Int) + 1) = ((i + 1 : Nat) : Int) := by push_cast; ring
      rw [hgo, hfind, hcast, ih (i + 1)]

/-- `jsIndexOf` is the zero-based first index of a reference match, `-1` when
absent. -/
theorem jsIndexOf_spec (t : DomTouch) (l : List DomTouch) :
    jsIndexOf l t =
      (match l.findIdx? (fun x => x.ref == t.ref) with
       | some j => (j : Int)
       | none => -1) :=
  jsIndexOf_go_spec t l 0

/-! ## Claims -/

/-- C1 (counterexample): `PointerEvent.fromDomEvent` does NOT pass the given
type through: with type `"pointermove"` the constructed event's type is unset,
not `"pointermove"`. -/
theorem fromDomEvent_type_not_passed_through :
    (PointerEvent.fromDomEvent (some "pointermove") ⟨150, 80⟩ 50 20).type ≠
      some "pointermove" := by
  simp [PointerEvent.fromDomEvent, PointerEvent.construct]

/-- C1 (amended): for every type value `t`, offset record and stage origin,
the event returned by `PointerEvent.fromDomEvent` has its type field unset
(`undefined`): the given `t` is ignored, never stored. -/
theorem fromDomEvent_type_unset (t : Option String) (off : ClientOffsets)
    (ox oy : Int) : (PointerEvent.fromDomEvent t off ox oy).type = none := rfl

/-- C2: every `PointerEvent` produced by direct construction, `fromDomEvent`,
`fromDomMouseEvent`, `fromDomTouch` or `clone` satisfies `stageX = x` and
`stageY = y`. -/
theorem pointer_stage_alias_invariant :
    (∀ (t : Option String) (sx sy cx cy : Int),
      (PointerEvent.construct t sx sy cx cy).stageX =
        (PointerEvent.construct t sx sy cx cy).x ∧
      (PointerEvent.construct t sx sy cx cy).stageY =
        (PointerEvent.construct t sx sy cx cy).y) ∧
    (∀ (t : Option String) (off : ClientOffsets) (ox oy : Int),
      (PointerEvent.fromDomEvent t off ox oy).stageX =
        (PointerEvent.fromDomEvent t off ox oy).x ∧
      (PointerEvent.fromDomEvent t off ox oy).stageY =
        (PointerEvent.fromDomEvent t off ox oy).y) ∧
    (∀ (m : DomMouseEvent) (ox oy : Int),
      (PointerEvent.fromDomMouseEvent m ox oy).stageX =
        (PointerEvent.fromDomMouseEvent m ox oy).x ∧
      (PointerEvent.fromDomMouseEvent m ox oy).stageY =
        (PointerEvent.fromDomMouseEvent m ox oy).y) ∧
    (∀ (p : DomTouch) (e : DomTouchEvent) (ox oy : Int),
      (PointerEvent.fromDomTouch p e ox oy).stageX =
        (PointerEvent.fromDomTouch p e ox oy).x ∧
      (PointerEvent.fromDomTouch p e ox oy).stageY =
        (PointerEvent.fromDomTouch p e ox oy).y) ∧
    (∀ (p : PointerEvent) (t : Option String),
      (p.clone t).stageX = (p.clone t).x ∧
      (p.clone t).stageY = (p.clone t).y) :=
  ⟨fun _ _ _ _ _ => ⟨rfl, rfl⟩, fun _ _ _ _ => ⟨rfl, rfl⟩,
   fun _ _ _ => ⟨rfl, rfl⟩, fun _ _ _ _ => ⟨rfl, rfl⟩,
   fun _ _ => ⟨rfl, rfl⟩⟩

/-- C3: `PointerEvent.fromDomTouch` sets `touchIndex` to the zero-based first
position of the touch point within the parent's ordered `touches` collection,
matching by object identity; when no member matches, `touchIndex` is `-1` (set,
not an error). -/
theorem fromDomTouch_touchIndex (p : DomTouch) (e : DomTouchEvent)
    (ox oy : Int) :
    (PointerEvent.fromDomTouch p e ox oy).touchIndex =
      some (match e.touches.findIdx? (fun x => x.ref == p.ref) with
            | some j => (j : Int)
            | none => -1) ∧
    ((∀ x ∈ e.touches, x.ref ≠ p.ref) →
      (PointerEvent.fromDomTouch p e ox oy).touchIndex = some (-1)) := by
  have hidx : (PointerEvent.fromDomTouch p e ox oy).touchIndex =
      some (jsIndexOf e.touches p) := rfl
  refine ⟨by rw [hidx, jsIndexOf_spec], fun habs => ?_⟩
  have hnone : e.touches.findIdx? (fun x => x.ref == p.ref) = none := by
    rw [List.findIdx?_eq_none_iff]
    intro x hx
    simpa using habs x hx
  rw [hidx, jsIndexOf_spec, hnone]

theorem fromDomTouch_touchIndex_witness :
    (PointerEvent.fromDomTouch ⟨2, 7, 30, 40⟩
        ⟨[⟨0, 5, 1, 1⟩, ⟨1, 6, 2, 2⟩, ⟨2, 7, 30, 40⟩]⟩ 10 10).touchIndex =
      some 2 ∧
    (PointerEvent.fromDomTouch ⟨9, 9, 0, 0⟩ ⟨[⟨0, 5, 1, 1⟩]⟩ 0 0).touchIndex =
      some (-1) := by
  constructor
  · have h := (fromDomTouch_touchIndex ⟨2, 7, 30, 40⟩
      ⟨[⟨0, 5, 1, 1⟩, ⟨1, 6, 2, 2⟩, ⟨2, 7, 30, 40⟩]⟩ 10 10).1
    rw [h]; rfl
  · exact (fromDomTouch_touchIndex ⟨9, 9, 0, 0⟩ ⟨[⟨0, 5, 1, 1⟩]⟩ 0 0).2
      (by decide)

/-- C4: `PointerEvent.fromDomMouseEvent` sets the type to the static table's
image of the raw type: the five known raw names map as listed, and any other
raw name yields an unset type (association-list lookup semantics). -/
theorem fromDomMouseEvent_type (m : DomMouseEvent) (ox oy : Int) :
    (PointerEvent.fromDomMouseEvent m ox oy).type =
      List.lookup m.type
        [("mouseup", "pointerup"), ("mousedown", "pointerdown"),
         ("mousemove", "pointermove"), ("mouseover", "mouseover"),
         ("mouseout", "mouseout")] := by
  show eventTypeMap m.type = _
  by_cases h1 : m.type = "mouseup"
  · simp [eventTypeMap, List.lookup, h1]
  by_cases h2 : m.type = "mousedown"
  · simp [eventTypeMap, List.lookup, h1, h2]
  by_cases h3 : m.type = "mousemove"
  · simp [eventTypeMap, List.lookup, h1, h2, h3]
  by_cases h4 : m.type = "mouseover"
  · simp [eventTypeMap, List.lookup, h1, h2, h3, h4]
  by_cases h5 : m.type = "mouseout"
  · simp [eventTypeMap, List.lookup, h1, h2, h3, h4, h5]
  have b1 : (m.type == "mouseup") = false := beq_eq_false_iff_ne.mpr h1
  have b2 : (m.type == "mousedown") = false := beq_eq_false_iff_ne.mpr h2
  have b3 : (m.type == "mousemove") = false := beq_eq_false_iff_ne.mpr h3
  have b4 : (m.type == "mouseover") = false := beq_eq_false_iff_ne.mpr h4
  have b5 : (m.type == "mouseout") = false := beq_eq_false_iff_ne.mpr h5
  simp [eventTypeMap, List.lookup, h1, h2, h3, h4, h5, b1, b2, b3, b4, b5]

/-- C5: for every modifier bitmask `m ≤ 15`, a `KeyboardEvent` constructed
with mask `m` and then cloned has modifier flags bit-for-bit equal to the
source's, and the clone's flags recombine to exactly `m`. -/
theorem keyboard_clone_modifier_roundtrip (m : Nat) (hm : m ≤ 15)
    (t : Option String) (kc : Int) (iv ct : Option String) :
    (((KeyboardEvent.construct t kc (some m) iv).clone ct).altKey =
        (KeyboardEvent.construct t kc (some m) iv).altKey ∧
      ((KeyboardEvent.construct t kc (some m) iv).clone ct).ctrlKey =
        (KeyboardEvent.construct t kc (some m) iv).ctrlKey ∧
      ((KeyboardEvent.construct t kc (some m) iv).clone ct).metaKey =
        (KeyboardEvent.construct t kc (some m) iv).metaKey ∧
      ((KeyboardEvent.construct t kc (some m) iv).clone ct).shiftKey =
        (KeyboardEvent.construct t kc (some m) iv).shiftKey) ∧
    ((KeyboardEvent.construct t kc (some m) iv).clone ct).modifierMask = m := by
  interval_cases m <;>
    simp [KeyboardEvent.clone, KeyboardEvent.construct,
      KeyboardEvent.modifierMask, ALT_KEY, CTRL_KEY, META_KEY, SHIFT_KEY] <;>
    decide

theorem keyboard_clone_modifier_roundtrip_witness :
    (11 : Nat) ≤ 15 ∧
    ((KeyboardEvent.construct (some "keydown") 13 (some 11)
        (some "hello")).clone none).modifierMask = 11 :=
  ⟨by decide,
   (keyboard_clone_modifier_roundtrip 11 (by decide) (some "keydown") 13
      (some "hello") none).2⟩

/-- C6: cloning a `PointerEvent` (whose alias invariant holds, as for every
event produced by the constructors and then caller-populated) preserves the
type when no override is given, installs a non-empty override as the new type,
and carries every coordinate, delta, diff, button and touch field over
unchanged, unset values included. -/
theorem pointer_clone_frame (p : PointerEvent) (hx : p.stageX = p.x)
    (hy : p.stageY = p.y) :
    ((p.clone none).type = p.type) ∧
    (∀ t : String, t ≠ "" → (p.clone (some t)).type = some t) ∧
    (∀ o : Option String,
      (p.clone o).stageX = p.stageX ∧ (p.clone o).x = p.x ∧
      (p.clone o).stageY = p.stageY ∧ (p.clone o).y = p.y ∧
      (p.clone o).clientX = p.clientX ∧ (p.clone o).clientY = p.clientY ∧
      (p.clone o).deltaX = p.deltaX ∧ (p.clone o).deltaY = p.deltaY ∧
      (p.clone o).diffX = p.diffX ∧ (p.clone o).diffY = p.diffY ∧
      (p.clone o).isLeft = p.isLeft ∧ (p.clone o).isRight = p.isRight ∧
      (p.clone o).isMiddle = p.isMiddle ∧ (p.clone o).touchId = p.touchId ∧
      (p.clone o).touchIndex = p.touchIndex) := by
  refine ⟨rfl, fun t ht => ?_, fun o => ?_⟩
  · simp [PointerEvent.clone, PointerEvent.construct, jsOrType, ht]
  · exact ⟨hx.symm ▸ rfl, rfl, hy.symm ▸ rfl, rfl, rfl, rfl, rfl, rfl, rfl,
      rfl, rfl, rfl, rfl, rfl, rfl⟩

theorem pointer_clone_frame_witness :
    (populatedSample.clone (some "dragend")).type = some "dragend" ∧
    (populatedSample.clone (some "dragend")).touchIndex =
      populatedSample.touchIndex := by
  have h := pointer_clone_frame populatedSample rfl rfl
  exact ⟨h.2.1 "dragend" (by decide),
    (h.2.2 (some "dragend")).2.2.2.2.2.2.2.2.2.2.2.2.2.2⟩

/-- C7: `KeyboardEvent.fromDomEvent` sets each modifier flag exactly when the
corresponding field of the key-info record is truthy (absent treated as
false), reads `keyCode` from the record, and leaves `type` unset regardless of
the `type` argument. -/
theorem keyboard_fromDomEvent_spec (t : Option String) (keys : DomKeys)
    (tv : Option String) :
    (KeyboardEvent.fromDomEvent t keys tv).altKey = truthy keys.altKey ∧
    (KeyboardEvent.fromDomEvent t keys tv).ctrlKey = truthy keys.ctrlKey ∧
    (KeyboardEvent.fromDomEvent t keys tv).metaKey = truthy keys.metaKey ∧
    (KeyboardEvent.fromDomEvent t keys tv).shiftKey = truthy keys.shiftKey ∧
    (KeyboardEvent.fromDomEvent t keys tv).keyCode = keys.keyCode ∧
    (KeyboardEvent.fromDomEvent t keys tv).type = none := by
  rcases keys with ⟨a, c, mo, s, kc⟩
  rcases a with _ | (_ | _) <;> rcases c with _ | (_ | _) <;>
    rcases mo with _ | (_ | _) <;> rcases s with _ | (_ | _) <;>
    simp [KeyboardEvent.fromDomEvent, KeyboardEvent.construct, truthy,
      ALT_KEY, CTRL_KEY, META_KEY, SHIFT_KEY] <;> decide

/-- C8: `PointerEvent.fromDomEvent` with offsets `(cx, cy)` and stage origin
`(ox, oy)` yields `stageX = cx - ox`, `stageY = cy - oy`, `clientX = cx`,
`clientY = cy`, with `x`/`y` equal to the stage coordinates. -/
theorem pointer_fromDomEvent_coords (t : Option String) (ox oy cx cy : Int) :
    (PointerEvent.fromDomEvent t ⟨cx, cy⟩ ox oy).stageX = cx - ox ∧
    (PointerEvent.fromDomEvent t ⟨cx, cy⟩ ox oy).stageY = cy - oy ∧
    (PointerEvent.fromDomEvent t ⟨cx, cy⟩ ox oy).clientX = cx ∧
    (PointerEvent.fromDomEvent t ⟨cx, cy⟩ ox oy).clientY = cy ∧
    (PointerEvent.fromDomEvent t ⟨cx, cy⟩ ox oy).x =
      (PointerEvent.fromDomEvent t ⟨cx, cy⟩ ox oy).stageX ∧
    (PointerEvent.fromDomEvent t ⟨cx, cy⟩ ox oy).y =
      (PointerEvent.fromDomEvent t ⟨cx, cy⟩ ox oy).stageY :=
  ⟨rfl, rfl, rfl, rfl, rfl, rfl⟩

/-- C9: constructing a `KeyboardEvent` with the modifiers argument omitted
(`none`, the JS `undefined`) yields all four modifier flags false and the very
same event as passing `NO_MODIFIER`. -/
theorem keyboard_construct_default_modifiers (t : Option String) (kc : Int)
    (iv : Option String) :
    (KeyboardEvent.construct t kc none iv).altKey = false ∧
    (KeyboardEvent.construct t kc none iv).ctrlKey = false ∧
    (KeyboardEvent.construct t kc none iv).metaKey = false ∧
    (KeyboardEvent.construct t kc none iv).shiftKey = false ∧
    KeyboardEvent.construct t kc none iv =
      KeyboardEvent.construct t kc (some NO_MODIFIER) iv :=
  ⟨rfl, rfl, rfl, rfl, rfl⟩

/-- C10: cloning with a provided-but-falsy type override (the empty string)
keeps the source's type, for both event families: `type || this.type`
distinguishes by truthiness, not presence. -/
theorem clone_falsy_type_override :
    (∀ (e : KeyboardEvent) (s : String), e.type = some s →
      (e.clone (some "")).type = e.type) ∧
    (∀ (p : PointerEvent) (s : String), p.type = some s →
      (p.clone (some "")).type = p.type) :=
  ⟨fun _ _ _ => rfl, fun _ _ _ => rfl⟩

theorem clone_falsy_type_override_witness :
    ((KeyboardEvent.construct (some "keydown") 13 (some 9) none).clone
        (some "")).type = some "keydown" ∧
    ((PointerEvent.construct (some "pointermove") 1 2 3 4).clone
        (some "")).type = some "pointermove" :=
  ⟨clone_falsy_type_override.1
      (KeyboardEvent.construct (some "keydown") 13 (some 9) none) "keydown" rfl,
   clone_falsy_type_override.2
      (PointerEvent.construct (some "pointermove") 1 2 3 4) "pointermove" rfl⟩

end Bonsai
